import Mathlib

/-!
# Web Push Message Encryption & VAPID Authentication Engine — verification

Shallow embedding of `src/lib/notifications/push.ts` (`sendPushNotification`
and its helpers `base64url`, `base64urlDecode`, `hkdf`).

Bytes are modelled as `List Nat` (each entry a value `0 ≤ b < 256`); 32-bit
fields are written with an explicit `% 2 ^ 32`.  The Node `crypto` library
primitives the source calls are modelled as follows:

* HMAC-SHA256 (`crypto.createHmac("sha256", …)`) is an abstract parameter
  `H : Bytes → Bytes → Bytes` (key, message → digest); every theorem that
  touches it is quantified over `H`.
* AES-128-GCM (`crypto.createCipheriv("aes-128-gcm", …)`) is modelled by its
  counter-mode structure: an abstract keystream `ks : key → nonce → index →
  byte` XORed over the plaintext, with an abstract tag function
  `tagF : key → nonce → aad → ciphertext → tag` appended; decryption checks
  the tag and XORs the same keystream.
* The P-256 group (`crypto.generateKeyPairSync("ec", …)`,
  `crypto.diffieHellman`) is modelled symbolically: the group is cyclic of
  prime order `p256n`, so a point is represented by its discrete logarithm
  with respect to the base point (a `Nat` reduced `% p256n`) and scalar
  multiplication is multiplication modulo `p256n`.  Serialization of the
  65-byte uncompressed point (`04 ∥ x ∥ y`) is modelled as the marker byte
  `0x04` followed by the 64-byte big-endian representative; the SPKI DER
  export and the source's `subarray(27)` slice of it — which cuts off the
  `0x04` marker and leaves only 64 bytes — are modelled byte-for-byte
  (`spkiExport`, `localPublicKeyBytes`).
* ECDSA signing (`sign.sign({ key, dsaEncoding: "ieee-p1363" })`) produces a
  pair of scalars `(r, s)`, modelled as abstract `Nat` parameters; the
  IEEE P1363 encoding the source selects (raw 32-byte `r` ∥ 32-byte `s`) is
  modelled concretely.
-/

namespace WebPush

/-- A byte string: a list of naturals, each intended `< 256`. -/
abbrev Bytes := List Nat

/-! ## Byte-level utilities -/

/-- Big-endian serialization of `v` into exactly `n` bytes (most significant
first), keeping the low `8 * n` bits.  Models `Buffer.writeUInt32BE` (with
`n = 4`) and fixed-width big-endian integer fields. -/
def natToBytesBE : Nat → Nat → Bytes
  | 0, _ => []
  | n + 1, v => natToBytesBE n (v / 256) ++ [v % 256]

/-- Big-endian interpretation of a byte string as a natural number. -/
def bytesToNatBE (bs : Bytes) : Nat :=
  bs.foldl (fun acc b => acc * 256 + b) 0

theorem natToBytesBE_length (n v : Nat) : (natToBytesBE n v).length = n := by
  induction n generalizing v with
  | zero => rfl
  | succ n ih => simp [natToBytesBE, ih]

theorem bytesToNatBE_append_singleton (bs : Bytes) (b : Nat) :
    bytesToNatBE (bs ++ [b]) = bytesToNatBE bs * 256 + b := by
  simp [bytesToNatBE, List.foldl_append]

theorem bytesToNatBE_natToBytesBE (n v : Nat) :
    bytesToNatBE (natToBytesBE n v) = v % 256 ^ n := by
  induction n generalizing v with
  | zero => simp [natToBytesBE, bytesToNatBE, Nat.mod_one]
  | succ n ih =>
    rw [natToBytesBE, bytesToNatBE_append_singleton, ih, pow_succ,
      mul_comm (256 ^ n) 256, Nat.mod_mul]
    ring

/-- UTF-8 encoding of a single character (RFC 3629), as `Buffer.from`
produces it. -/
def utf8CharBytes (c : Char) : Bytes :=
  let n := c.toNat
  if n < 0x80 then [n]
  else if n < 0x800 then [0xC0 + n / 64, 0x80 + n % 64]
  else if n < 0x10000 then [0xE0 + n / 4096, 0x80 + n / 64 % 64, 0x80 + n % 64]
  else [0xF0 + n / 262144, 0x80 + n / 4096 % 64, 0x80 + n / 64 % 64, 0x80 + n % 64]

/-- UTF-8 bytes of a string: models `Buffer.from(s)` in Node. -/
def utf8Bytes (s : String) : Bytes :=
  (s.data.map utf8CharBytes).flatten

/-! ## base64url (as produced by `buf.toString("base64url")`: unpadded) -/

/-- The 64-character base64url alphabet. -/
def b64Alphabet : List Char :=
  "ABCDEFGHIJKLMNOPQRSTUVWXYZabcdefghijklmnopqrstuvwxyz0123456789-_".data

/-- The base64url character for a 6-bit value. -/
def b64Char (i : Nat) : Char := b64Alphabet.getD (i % 64) 'A'

/-- Unpadded base64url encoding of a byte string, 3 bytes → 4 characters,
with the standard 1- and 2-byte tail forms and no `=` padding. -/
def base64urlChars : Bytes → List Char
  | [] => []
  | [b1] => [b64Char (b1 / 4), b64Char (b1 % 4 * 16)]
  | [b1, b2] => [b64Char (b1 / 4), b64Char (b1 % 4 * 16 + b2 / 16), b64Char (b2 % 16 * 4)]
  | b1 :: b2 :: b3 :: rest =>
      b64Char (b1 / 4) :: b64Char (b1 % 4 * 16 + b2 / 16) ::
        b64Char (b2 % 16 * 4 + b3 / 64) :: b64Char (b3 % 64) :: base64urlChars rest

/-- Models the source's `base64url(buffer)` helper. -/
def base64url (bs : Bytes) : String := String.mk (base64urlChars bs)

/-- Models the source's `base64url(string)` helper (UTF-8 bytes first). -/
def base64urlStr (s : String) : String := base64url (utf8Bytes s)

theorem b64Char_ne_dot (i : Nat) : b64Char i ≠ '.' := by
  have h : i % 64 < 64 := Nat.mod_lt _ (by decide)
  have : ∀ j < 64, b64Alphabet.getD j 'A' ≠ '.' := by decide
  exact this _ h

theorem base64urlChars_ne_dot : ∀ (bs : Bytes), ∀ ch ∈ base64urlChars bs, ch ≠ '.'
  | [], ch, h => by simp [base64urlChars] at h
  | [b1], ch, h => by
      simp [base64urlChars] at h
      rcases h with h | h <;> exact h ▸ b64Char_ne_dot _
  | [b1, b2], ch, h => by
      simp [base64urlChars] at h
      rcases h with h | h | h <;> exact h ▸ b64Char_ne_dot _
  | b1 :: b2 :: b3 :: rest, ch, h => by
      simp only [base64urlChars, List.mem_cons] at h
      rcases h with h | h | h | h | h
      · exact h ▸ b64Char_ne_dot _
      · exact h ▸ b64Char_ne_dot _
      · exact h ▸ b64Char_ne_dot _
      · exact h ▸ b64Char_ne_dot _
      · exact base64urlChars_ne_dot rest ch h

theorem base64url_ne_dot (bs : Bytes) : ∀ ch ∈ (base64url bs).data, ch ≠ '.' :=
  base64urlChars_ne_dot bs

/-! ## Symbolic P-256 group model

`crypto.generateKeyPairSync("ec", { namedCurve: "prime256v1" })`,
`crypto.diffieHellman` and the point (de)serialization the source performs
via DER prefix stripping/adding.  The group is cyclic of prime order
`p256n`; a point is represented by its discrete logarithm with respect to
the generator. -/

/-- Order of the P-256 base-point group (SEC 2, `prime256v1`). -/
def p256n : Nat := 0xffffffff00000000ffffffffffffffffbce6faada7179e84f3b9cac2fc632551

/-- The public point of a private scalar (`priv · G`, as a discrete log). -/
def ecPublic (priv : Nat) : Nat := priv % p256n

/-- ECDH: scalar-multiply the remote point by the local private scalar
(models `crypto.diffieHellman`). -/
def ecdhPoint (priv pubLog : Nat) : Nat := priv * pubLog % p256n

/-- 65-byte uncompressed point serialization: the `0x04` marker followed by
the 64-byte big-endian point representative (standing for `x ∥ y`).  This is
the form a subscriber's `p256dh` arrives in and the form the DER structures
embed; note the source's own `localPublicKey` slice is NOT this (see
`localPublicKeyBytes`). -/
def pointSer (p : Nat) : Bytes := 0x04 :: natToBytesBE 64 (p % p256n)

/-- Parse a 65-byte uncompressed point: drop the `0x04` marker and read the
representative (models `crypto.createPublicKey` on the DER-prefixed key). -/
def pointDeser (bs : Bytes) : Nat := bytesToNatBE (bs.drop 1)

/-- The 32-byte ECDH shared secret (x-coordinate) of a point, as
`crypto.diffieHellman` returns it. -/
def sharedSecretBytes (p : Nat) : Bytes := natToBytesBE 32 (p % 2 ^ 256)

theorem pointSer_length (p : Nat) : (pointSer p).length = 65 := by
  simp [pointSer, natToBytesBE_length]

theorem p256n_lt : p256n < 256 ^ 64 := by decide

theorem pointDeser_pointSer (p : Nat) : pointDeser (pointSer p) = p % p256n := by
  have h : p % p256n < 256 ^ 64 := lt_trans (Nat.mod_lt _ (by decide)) p256n_lt
  rw [show pointDeser (pointSer p) = bytesToNatBE (natToBytesBE 64 (p % p256n)) from rfl,
    bytesToNatBE_natToBytesBE, Nat.mod_eq_of_lt h]

/-- The 26-byte DER header of a P-256 SPKI.  The source concatenates exactly
these bytes (hex `3059301306072a8648ce3d020106082a8648ce3d030107034200`,
line 84) in front of a subscriber's 65-byte uncompressed point to rebuild an
SPKI key, and the same 26 bytes head the SPKI export of the ephemeral key,
so the uncompressed point starts at offset 26 of the export. -/
def spkiPrefix : Bytes :=
  [0x30, 0x59, 0x30, 0x13, 0x06, 0x07, 0x2a, 0x86, 0x48, 0xce, 0x3d, 0x02, 0x01,
   0x06, 0x08, 0x2a, 0x86, 0x48, 0xce, 0x3d, 0x03, 0x01, 0x07, 0x03, 0x42, 0x00]

/-- The 91-byte SPKI DER export of a public point
(`localKeys.publicKey.export({ type: "spki", format: "der" })`, line 78–79):
the 26-byte header followed by the 65-byte uncompressed point. -/
def spkiExport (p : Nat) : Bytes := spkiPrefix ++ pointSer p

/-- The source's `localPublicKey` (lines 78–80): `subarray(27)` of the SPKI
export.  The uncompressed point starts at offset 26, so this slice is the
64-byte `X ∥ Y` with the leading `0x04` marker cut off — one byte short of
the uncompressed point the wire format and RFC 8291 derivation call for. -/
def localPublicKeyBytes (ephPriv : Nat) : Bytes := (spkiExport (ecPublic ephPriv)).drop 27

theorem localPublicKeyBytes_eq (ephPriv : Nat) :
    localPublicKeyBytes ephPriv = natToBytesBE 64 (ecPublic ephPriv % p256n) := rfl

theorem localPublicKeyBytes_length (ephPriv : Nat) :
    (localPublicKeyBytes ephPriv).length = 64 := by
  rw [localPublicKeyBytes_eq, natToBytesBE_length]

theorem ecdh_comm (a b : Nat) :
    ecdhPoint a (ecPublic b) = ecdhPoint b (ecPublic a) := by
  simp only [ecdhPoint, ecPublic]
  conv_lhs => rw [Nat.mul_mod, Nat.mod_mod_of_dvd b dvd_rfl]
  conv_rhs => rw [Nat.mul_mod, Nat.mod_mod_of_dvd a dvd_rfl]
  rw [mul_comm]

/-! ## HKDF (the source's `hkdf` helper, lines 144–148) -/

/-- The source's `hkdf`: extract (`HMAC(salt, ikm)`), one expand round
(`HMAC(prk, info ∥ 0x01)`), truncate to `length`.  `H` is HMAC-SHA256. -/
def hkdf (H : Bytes → Bytes → Bytes) (salt ikm info : Bytes) (length : Nat) : Bytes :=
  let prk := H salt ikm
  let infoHmac := H prk (info ++ [1])
  infoHmac.take length

/-! ## AES-128-GCM model -/

/-- XOR a byte sequence against the keystream `f`, starting at index `i`. -/
def xorStream (f : Nat → Nat) : Nat → Bytes → Bytes
  | _, [] => []
  | i, b :: rest => (b ^^^ f i) :: xorStream f (i + 1) rest

theorem xorStream_xorStream (f : Nat → Nat) :
    ∀ (i : Nat) (l : Bytes), xorStream f i (xorStream f i l) = l := by
  intro i l
  induction l generalizing i with
  | nil => rfl
  | cons b rest ih => simp [xorStream, ih, Nat.xor_cancel_right]

theorem xorStream_length (f : Nat → Nat) :
    ∀ (i : Nat) (l : Bytes), (xorStream f i l).length = l.length := by
  intro i l
  induction l generalizing i with
  | nil => rfl
  | cons b rest ih => simp [xorStream, ih]

/-- AES-128-GCM encryption (`crypto.createCipheriv("aes-128-gcm", key, nonce)`
with `cipher.update ∥ cipher.final ∥ cipher.getAuthTag`): counter-mode XOR of
the abstract keystream `ks`, with the abstract tag `tagF` over the (possibly
empty) additional authenticated data and the ciphertext.  Returns
`(ciphertext, tag)`. -/
def aes128gcmEncrypt (ks : Bytes → Bytes → Nat → Nat)
    (tagF : Bytes → Bytes → Bytes → Bytes → Bytes)
    (key nonce pt aad : Bytes) : Bytes × Bytes :=
  let ct := xorStream (ks key nonce) 0 pt
  (ct, tagF key nonce aad ct)

/-- AES-128-GCM decryption: recompute the tag over the ciphertext; on a
match, XOR the same keystream back; otherwise fail. -/
def aes128gcmDecrypt (ks : Bytes → Bytes → Nat → Nat)
    (tagF : Bytes → Bytes → Bytes → Bytes → Bytes)
    (key nonce ct aad tag : Bytes) : Option Bytes :=
  if tagF key nonce aad ct = tag then some (xorStream (ks key nonce) 0 ct) else none

/-! ## URL parsing (the `new URL(…)` fields the source reads) -/

/-- The scheme characters of a URL (everything before the first `:`). -/
def urlSchemeChars (l : List Char) : List Char := l.takeWhile (· != ':')

/-- The host (including any port) of a `scheme://host/…` URL: the characters
after `://` up to the next `/`. -/
def urlHostChars (l : List Char) : List Char :=
  ((l.dropWhile (· != ':')).drop 3).takeWhile (· != '/')

/-- Models `new URL(s).protocol` (scheme plus the trailing `:`). -/
def urlProtocol (s : String) : String := String.mk (urlSchemeChars s.data ++ [':'])

/-- Models `new URL(s).host` (host, with port if present). -/
def urlHost (s : String) : String := String.mk (urlHostChars s.data)

/-! ## VAPID JWT (source lines 44–70) -/

/-- The JWT `aud` claim the source builds:
`` `${endpoint.protocol}//${endpoint.host}` ``. -/
def audOf (endpoint : String) : String := urlProtocol endpoint ++ "//" ++ urlHost endpoint

/-- The JWT `exp` claim: `now + 43200` (12 hours). -/
def vapidExp (now : Nat) : Nat := now + 43200

/-- The JWT `sub` claim: `` `mailto:admin@${new URL(appUrl).host}` `` where
`appUrl` is `process.env.NEXT_PUBLIC_APP_URL || "http://localhost:3000"`. -/
def vapidSub (envAppUrl : Option String) : String :=
  "mailto:admin@" ++ urlHost (envAppUrl.getD "http://localhost:3000")

/-- The JWT header, `JSON.stringify({ typ: "JWT", alg: "ES256" })`. -/
def jwtHeaderJson : String := "\x7b\"typ\":\"JWT\",\"alg\":\"ES256\"\x7d"

/-- The JWT claims, `JSON.stringify({ aud, exp, sub })` with the source's
claim values. -/
def vapidClaimsJson (endpoint : String) (now : Nat) (envAppUrl : Option String) : String :=
  "\x7b\"aud\":\"" ++ audOf endpoint ++ "\",\"exp\":" ++ toString (vapidExp now)
    ++ ",\"sub\":\"" ++ vapidSub envAppUrl ++ "\"\x7d"

/-- IEEE P1363 ECDSA signature encoding selected by the source
(`dsaEncoding: "ieee-p1363"`): raw 32-byte big-endian `r` followed by raw
32-byte big-endian `s`. -/
def p1363 (r s : Nat) : Bytes := natToBytesBE 32 r ++ natToBytesBE 32 s

/-- The signed compact JWT: `base64url(header) . base64url(claims) .
base64url(signature)`, with the ECDSA signature scalars `(sigR, sigS)`
abstract (they depend on the VAPID private key and the signing nonce). -/
def vapidJwt (sigR sigS : Nat) (endpoint : String) (now : Nat)
    (envAppUrl : Option String) : String :=
  base64urlStr jwtHeaderJson ++ "." ++ base64urlStr (vapidClaimsJson endpoint now envAppUrl)
    ++ "." ++ base64url (p1363 sigR sigS)

/-! ## Key derivation (source lines 91–99) and record encryption (101–116) -/

/-- The source's derivation block: `authInfo`, then `prk`, `contentKey`,
`nonce` via the `hkdf` helper.  Returns `(prk, contentKey, nonce)`. -/
def deriveKeysCode (H : Bytes → Bytes → Bytes)
    (userAuth sharedSecret userPublicKey localPublicKey salt : Bytes) :
    Bytes × Bytes × Bytes :=
  let authInfo := utf8Bytes "WebPush: info\x00" ++ userPublicKey ++ localPublicKey
  let prk := hkdf H userAuth sharedSecret authInfo 32
  let contentKey := hkdf H salt prk (utf8Bytes "Content-Encoding: aes128gcm\x00") 16
  let nonce := hkdf H salt prk (utf8Bytes "Content-Encoding: nonce\x00") 12
  (prk, contentKey, nonce)

/-- The `ciphertext ∥ tag` bytes the source computes: ECDH with the
subscriber key, `deriveKeysCode`, then AES-128-GCM over
`Buffer.concat([Buffer.from(body), Buffer.from([2])])` with no additional
authenticated data, the tag appended. -/
def recordEncrypted (H : Bytes → Bytes → Bytes) (ks : Bytes → Bytes → Nat → Nat)
    (tagF : Bytes → Bytes → Bytes → Bytes → Bytes)
    (ephPriv : Nat) (userPublicKey userAuth salt : Bytes) (bodyJson : String) : Bytes :=
  let localPublicKey := localPublicKeyBytes ephPriv
  let sharedSecret := sharedSecretBytes (ecdhPoint ephPriv (pointDeser userPublicKey))
  let dk := deriveKeysCode H userAuth sharedSecret userPublicKey localPublicKey salt
  let paddedPayload := utf8Bytes bodyJson ++ [2]
  let encPair := aes128gcmEncrypt ks tagF dk.2.1 dk.2.2 paddedPayload []
  encPair.1 ++ encPair.2

/-! ## The full request (source lines 29–127) -/

/-- The outbound HTTP request `sendPushNotification` hands to `fetch`. -/
structure PushRequest where
  url : String
  method : String
  authorization : String
  contentEncoding : String
  contentType : String
  ttl : String
  body : Bytes
  deriving DecidableEq

/-- The request `sendPushNotification` builds once the VAPID environment
variables are present.  `sigR`/`sigS` are the ECDSA signature scalars,
`salt` is `crypto.randomBytes(16)`, `ephPriv` the fresh ephemeral private
scalar, `userPublicKey`/`userAuth` the base64url-decoded subscription
fields, and `bodyJson` is `JSON.stringify(payload)`. -/
def sendCore (H : Bytes → Bytes → Bytes) (ks : Bytes → Bytes → Nat → Nat)
    (tagF : Bytes → Bytes → Bytes → Bytes → Bytes)
    (sigR sigS : Nat) (vapidPublicKey : String) (envAppUrl : Option String)
    (now : Nat) (salt : Bytes) (ephPriv : Nat) (endpoint : String)
    (userPublicKey userAuth : Bytes) (bodyJson : String) : PushRequest :=
  let localPublicKey := localPublicKeyBytes ephPriv
  let encrypted := recordEncrypted H ks tagF ephPriv userPublicKey userAuth salt bodyJson
  let recordSize := natToBytesBE 4 ((encrypted.length + 17 + 1) % 2 ^ 32)
  { url := endpoint
    method := "POST"
    authorization :=
      "vapid t=" ++ vapidJwt sigR sigS endpoint now envAppUrl ++ ", k=" ++ vapidPublicKey
    contentEncoding := "aes128gcm"
    contentType := "application/octet-stream"
    ttl := "86400"
    body := salt ++ recordSize ++ [localPublicKey.length] ++ localPublicKey ++ encrypted }

/-- Models the crypto library's acceptance of the subscriber's `p256dh`
bytes: `crypto.createPublicKey` on the DER-prefixed key (lines 83–88)
throws unless the appended bytes form a well-formed 65-byte uncompressed
point (a wrong length breaks the hardcoded DER length fields, a wrong
leading byte is not an uncompressed-point form).  The symbolic group model
cannot express off-curve points — every representable value lies in the
group — so the check captures the length-and-marker shape of the library's
rejection. -/
def validP256dhPoint (bs : Bytes) : Bool :=
  bs.length == 65 && bs.headD 0 == 4

/-- The source's `sendPushNotification` up to the `fetch` call: fails when
either VAPID environment variable is absent, or when the crypto library
rejects the subscriber's `p256dh` while constructing the public key
(`validP256dhPoint`); it performs no validation of its own — in particular
none of the `auth` field and none of the payload size. -/
def sendPushNotificationModel (H : Bytes → Bytes → Bytes)
    (ks : Bytes → Bytes → Nat → Nat) (tagF : Bytes → Bytes → Bytes → Bytes → Bytes)
    (sigR sigS : Nat) (envVapidPublicKey envVapidPrivateKey envAppUrl : Option String)
    (now : Nat) (salt : Bytes) (ephPriv : Nat) (endpoint : String)
    (userPublicKey userAuth : Bytes) (bodyJson : String) : Except String PushRequest :=
  match envVapidPublicKey, envVapidPrivateKey with
  | some pk, some _ =>
      if validP256dhPoint userPublicKey then
        .ok (sendCore H ks tagF sigR sigS pk envAppUrl now salt ephPriv endpoint
          userPublicKey userAuth bodyJson)
      else .error "invalid p256dh key"
  | _, _ => .error "VAPID keys not configured"

/-- The source's handling of the `fetch` response (lines 129–132): non-ok
statuses raise `` `Push failed (${response.status}): ${text}` ``; ok
statuses return normally.  No retry is attempted. -/
def handlePushResponse (ok : Bool) (status : Nat) (text : String) : Except String Unit :=
  if ok then .ok ()
  else .error ("Push failed (" ++ toString status ++ "): " ++ text)

/-! ## Receiver pipeline and RFC 8291 derivation formulas (from the spec) -/

/-- Modelled from the spec (§4.3, §8 "Round trip"): the subscriber-side
inverse pipeline.  Parse the `aes128gcm` record (`salt(16) ∥ rs(4) ∥
idlen(1) ∥ keyId(65) ∥ ciphertext ∥ tag(16)`), run ECDH with the ephemeral
public key taken from the record's `keyId` field and the subscriber's
private scalar, redo the RFC 8291 HKDF derivation, AES-128-GCM-decrypt with
the derived key and nonce, and strip the trailing `0x02` delimiter. -/
def webPushDecrypt (H : Bytes → Bytes → Bytes) (ks : Bytes → Bytes → Nat → Nat)
    (tagF : Bytes → Bytes → Bytes → Bytes → Bytes)
    (subPriv : Nat) (userAuth userPublicKey body : Bytes) : Option Bytes :=
  let contentSalt := body.take 16
  let keyId := (body.drop 21).take 65
  let ctAndTag := body.drop 86
  let ct := ctAndTag.take (ctAndTag.length - 16)
  let tag := ctAndTag.drop (ctAndTag.length - 16)
  let shared := sharedSecretBytes (ecdhPoint subPriv (pointDeser keyId))
  let dk := deriveKeysCode H userAuth shared userPublicKey keyId contentSalt
  match aes128gcmDecrypt ks tagF dk.2.1 dk.2.2 ct [] tag with
  | none => none
  | some pt => if pt.getLast? = some 2 then some pt.dropLast else none

/-- Modelled from the spec (§4.3 step 3): HKDF as "HMAC-SHA256 extract
(salt as HMAC key over ikm) followed by a single expand round with the
literal counter byte 0x01 appended to info, truncated to the requested
length". -/
def hkdfSpec (H : Bytes → Bytes → Bytes) (salt ikm info : Bytes) (length : Nat) : Bytes :=
  (H (H salt ikm) (info ++ [0x01])).take length

/-- Modelled from the spec (§4.3 steps 2–6): `prk`, `cek` and `nonce` by the
RFC 8291 formulas, with `authInfo = "WebPush: info\0" ∥ subscriber p256dh ∥
sender ephemeral public key` in that byte order. -/
def deriveKeysSpec (H : Bytes → Bytes → Bytes)
    (auth shared p256dh ephPub contentSalt : Bytes) : Bytes × Bytes × Bytes :=
  let prk := hkdfSpec H auth shared (utf8Bytes "WebPush: info\x00" ++ p256dh ++ ephPub) 32
  let cek := hkdfSpec H contentSalt prk (utf8Bytes "Content-Encoding: aes128gcm\x00") 16
  let nonce := hkdfSpec H contentSalt prk (utf8Bytes "Content-Encoding: nonce\x00") 12
  (prk, cek, nonce)

/-! ## List helper lemmas -/

theorem takeWhile_append_cons {α : Type} (p : α → Bool) (l₁ l₂ : List α) (b : α)
    (h : ∀ a ∈ l₁, p a = true) (hb : p b = false) :
    (l₁ ++ b :: l₂).takeWhile p = l₁ := by
  induction l₁ with
  | nil => simp [List.takeWhile, hb]
  | cons a l ih =>
    have ha : p a = true := h a (by simp)
    simp only [List.cons_append, List.takeWhile, ha]
    exact congrArg (a :: ·) (ih fun x hx => h x (by simp [hx]))

theorem dropWhile_append_cons {α : Type} (p : α → Bool) (l₁ l₂ : List α) (b : α)
    (h : ∀ a ∈ l₁, p a = true) (hb : p b = false) :
    (l₁ ++ b :: l₂).dropWhile p = b :: l₂ := by
  induction l₁ with
  | nil => simp [List.dropWhile, hb]
  | cons a l ih =>
    have ha : p a = true := h a (by simp)
    simp only [List.cons_append, List.dropWhile, ha]
    exact ih fun x hx => h x (by simp [hx])

/-- Positional decomposition of the assembled record body (shared by the
round-trip and record-size theorems). -/
theorem body_slices (salt rs : Bytes) (idl : Nat) (lpk enc : Bytes)
    (h16 : salt.length = 16) (h4 : rs.length = 4) (h64 : lpk.length = 64) :
    (salt ++ rs ++ [idl] ++ lpk ++ enc).take 16 = salt
    ∧ ((salt ++ rs ++ [idl] ++ lpk ++ enc).drop 16).take 4 = rs
    ∧ ((salt ++ rs ++ [idl] ++ lpk ++ enc).drop 21).take 64 = lpk
    ∧ (salt ++ rs ++ [idl] ++ lpk ++ enc).drop 85 = enc := by
  refine ⟨?_, ?_, ?_, ?_⟩
  · rw [show salt ++ rs ++ [idl] ++ lpk ++ enc
        = salt ++ (rs ++ [idl] ++ lpk ++ enc) by simp,
      List.take_left' h16]
  · rw [show salt ++ rs ++ [idl] ++ lpk ++ enc
        = salt ++ (rs ++ ([idl] ++ lpk ++ enc)) by simp,
      List.drop_left' h16, List.take_left' h4]
  · rw [show salt ++ rs ++ [idl] ++ lpk ++ enc
        = (salt ++ rs ++ [idl]) ++ (lpk ++ enc) by simp,
      List.drop_left' (by simp [h16, h4]), List.take_left' h64]
  · rw [show salt ++ rs ++ [idl] ++ lpk ++ enc
        = (salt ++ rs ++ [idl] ++ lpk) ++ enc by simp,
      List.drop_left' (by simp [h16, h4, h64])]

/-- The ciphertext-plus-tag segment is one byte longer than the serialized
payload (the `0x02` delimiter) plus the 16-byte GCM tag. -/
theorem recordEncrypted_length (H : Bytes → Bytes → Bytes)
    (ks : Bytes → Bytes → Nat → Nat) (tagF : Bytes → Bytes → Bytes → Bytes → Bytes)
    (ephPriv : Nat) (ub ua salt : Bytes) (bj : String)
    (htag : ∀ k n a c, (tagF k n a c).length = 16) :
    (recordEncrypted H ks tagF ephPriv ub ua salt bj).length
      = (utf8Bytes bj).length + 1 + 16 := by
  simp only [recordEncrypted, aes128gcmEncrypt, List.length_append]
  rw [xorStream_length, htag, List.length_append]
  rfl

/-! ## Concrete instances (used by witnesses and counterexamples) -/

/-- A concrete stand-in HMAC instance (constant digest). -/
def hmacC : Bytes → Bytes → Bytes := fun _ _ => List.replicate 32 0

/-- A concrete stand-in AES-CTR keystream (all-zero bytes). -/
def ksC : Bytes → Bytes → Nat → Nat := fun _ _ _ => 0

/-- A concrete stand-in GCM tag function (16 constant bytes). -/
def tagC : Bytes → Bytes → Bytes → Bytes → Bytes := fun _ _ _ _ => List.replicate 16 0

/-- A concrete 16-byte content salt. -/
def saltC : Bytes := List.replicate 16 0

/-- A concrete subscriber p256dh value: the public point of the private
scalar `5`, serialized. -/
def subDhC : Bytes := pointSer (ecPublic 5)

/-- A concrete 16-byte auth secret. -/
def authC : Bytes := List.replicate 16 0

/-- A malformed 15-byte auth secret. -/
def auth15C : Bytes := List.replicate 15 0

/-- A malformed 64-byte p256dh value (no `0x04` marker, one byte short). -/
def p256dh64C : Bytes := List.replicate 64 0

/-- A 5000-character payload (oversize for a 4096-byte record ceiling). -/
def bigBodyC : String := String.mk (List.replicate 5000 'a')

/-! ## Claim theorems -/

/-- C2.  Divergence: the source's derivation block does implement the
extract-then-single-expand HKDF formulas of the claim for whatever byte
inputs it is handed, but the final component of the `authInfo` it hands in
is the 64-byte `subarray(27)` slice (no `0x04` marker), not the RFC 8291
"sender ephemeral public key": at ephemeral scalar 7 the byte string the
code hashes differs from the one the claim requires. -/
theorem claim_c2_authinfo_divergence :
    (∀ (H : Bytes → Bytes → Bytes) (ua shared csalt : Bytes) (ephPriv : Nat) (ub : Bytes),
        deriveKeysCode H ua shared ub (localPublicKeyBytes ephPriv) csalt
          = deriveKeysSpec H ua shared ub (localPublicKeyBytes ephPriv) csalt)
    ∧ (localPublicKeyBytes 7).length = 64
    ∧ utf8Bytes "WebPush: info\x00" ++ subDhC ++ localPublicKeyBytes 7
        ≠ utf8Bytes "WebPush: info\x00" ++ subDhC ++ pointSer (ecPublic 7) := by
  refine ⟨fun _ _ _ _ _ _ => rfl, ?_, ?_⟩ <;> decide

/-- C8.  Delivery outcome: a non-ok push-service response raises a failure
whose message carries the HTTP status code and the response body verbatim
(`Push failed (status): body`), an ok response completes successfully, and
the response handler maps one response to one outcome with no retry. -/
theorem claim_c8_delivery_outcome :
    (∀ (status : Nat) (text : String),
        handlePushResponse false status text
          = .error ("Push failed (" ++ toString status ++ "): " ++ text))
    ∧ (∀ (status : Nat) (text : String), handlePushResponse true status text = .ok ()) :=
  ⟨fun _ _ => rfl, fun _ _ => rfl⟩

/-- C9.  Fixed TTL: whatever the crypto instances, environment, time,
randomness, subscription and payload, the TTL header of the produced
request is the constant string `"86400"` — `sendCore` has no TTL parameter
and reads no configuration for it. -/
theorem claim_c9_fixed_ttl (H : Bytes → Bytes → Bytes)
    (ks : Bytes → Bytes → Nat → Nat) (tagF : Bytes → Bytes → Bytes → Bytes → Bytes)
    (sigR sigS : Nat) (pk : String) (app : Option String) (now : Nat)
    (salt : Bytes) (ephPriv : Nat) (endpoint : String) (ub ua : Bytes) (bj : String) :
    (sendCore H ks tagF sigR sigS pk app now salt ephPriv endpoint ub ua bj).ttl
      = "86400" := rfl

/-- C10.  Fixed contact URI: the JWT `sub` claim is always the string
`"mailto:admin@"` followed by the host of `NEXT_PUBLIC_APP_URL`, and when
that variable is unset the fallback `"http://localhost:3000"` makes it
`"mailto:admin@localhost:3000"`; `vapidSub` takes no caller-supplied
contact URI and performs no scheme validation (it is total on every
environment value). -/
theorem claim_c10_contact_uri :
    (∀ u : String, vapidSub (some u) = "mailto:admin@" ++ urlHost u)
    ∧ vapidSub none = "mailto:admin@localhost:3000" := by
  refine ⟨fun u => rfl, ?_⟩
  decide

/-- C3.  Divergence: at a concrete input the idlen byte at offset 20 of the
produced body is `0x40` and the keyId field is the 64-byte `subarray(27)`
slice — not the `0x41` and 65-byte uncompressed ephemeral key the claim
states. -/
theorem claim_c3_idlen_divergence :
    (sendCore hmacC ksC tagC 1 2 "pk" none 0 saltC 7 "https://p.example/e"
        subDhC authC "hi").body.get? 20 = some 0x40
    ∧ ((sendCore hmacC ksC tagC 1 2 "pk" none 0 saltC 7 "https://p.example/e"
        subDhC authC "hi").body.drop 21).take 64 = localPublicKeyBytes 7
    ∧ (localPublicKeyBytes 7).length = 64
    ∧ ¬ ((sendCore hmacC ksC tagC 1 2 "pk" none 0 saltC 7 "https://p.example/e"
        subDhC authC "hi").body.get? 20 = some 0x41) := by
  refine ⟨?_, ?_, ?_, ?_⟩ <;> decide

/-- C4 counterexample: at a concrete payload (`"hi"`, ciphertext-plus-tag
length 19) the 4-byte big-endian field at offsets 16–19 decodes to
`len(ciphertext ∥ tag) + 18` = 37, not `len(ciphertext ∥ tag) + 66` = 85 as
the claim states. -/
theorem claim_c4_counterexample :
    bytesToNatBE
        (((sendCore hmacC ksC tagC 1 2 "pk" none 0 saltC 7 "https://p.example/e"
            subDhC authC "hi").body.drop 16).take 4)
      = (recordEncrypted hmacC ksC tagC 7 subDhC authC saltC "hi").length + 18
    ∧ ¬ (bytesToNatBE
          (((sendCore hmacC ksC tagC 1 2 "pk" none 0 saltC 7 "https://p.example/e"
              subDhC authC "hi").body.drop 16).take 4)
        = (recordEncrypted hmacC ksC tagC 7 subDhC authC saltC "hi").length + 66) := by
  constructor <;> decide

/-- C4 amended: the 4-byte big-endian record-size field at offsets 16–19 of
the encrypted body equals `len(ciphertext ∥ tag) + 18` (the source writes
`encrypted.length + 17 + 1`), not `len(ciphertext ∥ tag) + 66`. -/
theorem claim_c4_amended (H : Bytes → Bytes → Bytes)
    (ks : Bytes → Bytes → Nat → Nat) (tagF : Bytes → Bytes → Bytes → Bytes → Bytes)
    (sigR sigS : Nat) (pk : String) (app : Option String) (now : Nat)
    (salt : Bytes) (ephPriv : Nat) (endpoint : String) (ub ua : Bytes) (bj : String)
    (h16 : salt.length = 16)
    (hlt : (recordEncrypted H ks tagF ephPriv ub ua salt bj).length + 18 < 2 ^ 32) :
    bytesToNatBE
        (((sendCore H ks tagF sigR sigS pk app now salt ephPriv endpoint ub ua bj).body.drop
            16).take 4)
      = (recordEncrypted H ks tagF ephPriv ub ua salt bj).length + 18 := by
  have hbody : (sendCore H ks tagF sigR sigS pk app now salt ephPriv endpoint ub ua bj).body
      = salt
        ++ natToBytesBE 4
            (((recordEncrypted H ks tagF ephPriv ub ua salt bj).length + 17 + 1) % 2 ^ 32)
        ++ [(localPublicKeyBytes ephPriv).length]
        ++ localPublicKeyBytes ephPriv
        ++ recordEncrypted H ks tagF ephPriv ub ua salt bj := rfl
  obtain ⟨-, hs2, -, -⟩ :=
    body_slices salt
      (natToBytesBE 4
        (((recordEncrypted H ks tagF ephPriv ub ua salt bj).length + 17 + 1) % 2 ^ 32))
      (localPublicKeyBytes ephPriv).length (localPublicKeyBytes ephPriv)
      (recordEncrypted H ks tagF ephPriv ub ua salt bj)
      h16 (natToBytesBE_length _ _) (localPublicKeyBytes_length _)
  rw [hbody, hs2, bytesToNatBE_natToBytesBE,
    show (256 : Nat) ^ 4 = 2 ^ 32 by norm_num,
    Nat.mod_mod_of_dvd _ dvd_rfl, Nat.mod_eq_of_lt (by omega)]

/-- C4 amended witness: the amended record-size theorem at a concrete
instantiation. -/
theorem claim_c4_amended_witness :
    bytesToNatBE
        (((sendCore hmacC ksC tagC 3 4 "pk" none 0 saltC 7 "https://p.example/e"
            subDhC authC "hi").body.drop 16).take 4)
      = (recordEncrypted hmacC ksC tagC 7 subDhC authC saltC "hi").length + 18 :=
  claim_c4_amended hmacC ksC tagC 3 4 "pk" none 0 saltC 7 "https://p.example/e"
    subDhC authC "hi" (by decide) (by decide)

/-- C6 counterexample: with a 15-byte `auth` secret (and an otherwise valid
subscription) the operation does not reject — it proceeds through key
derivation and returns the built request. -/
theorem claim_c6_counterexample :
    (sendPushNotificationModel hmacC ksC tagC 1 2 (some "pk") (some "sk") none 0
        saltC 7 "https://p.example/e" subDhC auth15C "hi").isOk = true := rfl

/-- C6 amended: the operation validates nothing itself.  An `auth` byte
string of any length whatsoever is accepted and key derivation proceeds to
the assembled request; a `p256dh` that is not a well-formed 65-byte
`0x04`-prefixed point is rejected by the crypto library while constructing
the public key (before any derivation), not by a `ValidationError` of the
operation. -/
theorem claim_c6_amended (H : Bytes → Bytes → Bytes)
    (ks : Bytes → Bytes → Nat → Nat) (tagF : Bytes → Bytes → Bytes → Bytes → Bytes)
    (sigR sigS : Nat) (pk sk : String) (app : Option String) (now : Nat)
    (salt : Bytes) (ephPriv : Nat) (endpoint : String) (ub ua : Bytes) (bj : String) :
    (validP256dhPoint ub = true →
        sendPushNotificationModel H ks tagF sigR sigS (some pk) (some sk) app now salt
            ephPriv endpoint ub ua bj
          = .ok (sendCore H ks tagF sigR sigS pk app now salt ephPriv endpoint ub ua bj))
    ∧ (validP256dhPoint ub = false →
        sendPushNotificationModel H ks tagF sigR sigS (some pk) (some sk) app now salt
            ephPriv endpoint ub ua bj
          = .error "invalid p256dh key") := by
  constructor <;> intro h <;> simp [sendPushNotificationModel, h]

/-- C6 amended witness: a 15-byte `auth` with a valid `p256dh` still yields
the built request, while a 64-byte `p256dh` is refused at key
construction. -/
theorem claim_c6_amended_witness :
    sendPushNotificationModel hmacC ksC tagC 1 2 (some "pk") (some "sk") none 0 saltC 7
        "https://p.example/e" subDhC auth15C "hi"
      = .ok (sendCore hmacC ksC tagC 1 2 "pk" none 0 saltC 7 "https://p.example/e"
          subDhC auth15C "hi")
    ∧ sendPushNotificationModel hmacC ksC tagC 1 2 (some "pk") (some "sk") none 0 saltC 7
        "https://p.example/e" p256dh64C auth15C "hi"
      = .error "invalid p256dh key" :=
  ⟨(claim_c6_amended hmacC ksC tagC 1 2 "pk" "sk" none 0 saltC 7 "https://p.example/e"
      subDhC auth15C "hi").1 (by decide),
    (claim_c6_amended hmacC ksC tagC 1 2 "pk" "sk" none 0 saltC 7 "https://p.example/e"
      p256dh64C auth15C "hi").2 (by decide)⟩

/-- C7 counterexample: a 5000-byte payload (serialized length plus the
delimiter and GCM tag far above a 4096-byte service record ceiling) is not
rejected: the operation still builds the request for `fetch`. -/
theorem claim_c7_counterexample :
    (sendPushNotificationModel hmacC ksC tagC 1 2 (some "pk") (some "sk") none 0
        saltC 7 "https://p.example/e" subDhC authC bigBodyC).isOk = true
    ∧ (utf8Bytes bigBodyC).length + 1 + 16 > 4096 := by
  refine ⟨rfl, ?_⟩
  have h : ∀ n : Nat, ((List.replicate n 'a').map utf8CharBytes).flatten.length = n := by
    intro n
    induction n with
    | zero => rfl
    | succ n ih => simp [List.replicate_succ, utf8CharBytes, ih]
  have hb : (utf8Bytes bigBodyC).length = 5000 := h 5000
  omega

/-- C7 amended: the source performs no payload-size check: for every
payload, however large (given a well-formed subscription point and the
usual 16-byte salt and GCM tag), the request is built — with a body of
exactly `85 + (len(payloadBytes) + 1) + 16` bytes — and handed to `fetch`;
an oversize payload's failure is only discovered from the push service's
non-ok response. -/
theorem claim_c7_amended (H : Bytes → Bytes → Bytes)
    (ks : Bytes → Bytes → Nat → Nat) (tagF : Bytes → Bytes → Bytes → Bytes → Bytes)
    (sigR sigS : Nat) (pk sk : String) (app : Option String) (now : Nat)
    (salt : Bytes) (ephPriv : Nat) (endpoint : String) (ub ua : Bytes) (bj : String)
    (hub : validP256dhPoint ub = true)
    (h16 : salt.length = 16)
    (htag : ∀ k n a c, (tagF k n a c).length = 16) :
    sendPushNotificationModel H ks tagF sigR sigS (some pk) (some sk) app now salt
        ephPriv endpoint ub ua bj
      = .ok (sendCore H ks tagF sigR sigS pk app now salt ephPriv endpoint ub ua bj)
    ∧ (sendCore H ks tagF sigR sigS pk app now salt ephPriv endpoint ub ua bj).body.length
      = 85 + ((utf8Bytes bj).length + 1) + 16 := by
  refine ⟨by simp [sendPushNotificationModel, hub], ?_⟩
  have hbody : (sendCore H ks tagF sigR sigS pk app now salt ephPriv endpoint ub ua bj).body
      = salt
        ++ natToBytesBE 4
            (((recordEncrypted H ks tagF ephPriv ub ua salt bj).length + 17 + 1) % 2 ^ 32)
        ++ [(localPublicKeyBytes ephPriv).length]
        ++ localPublicKeyBytes ephPriv
        ++ recordEncrypted H ks tagF ephPriv ub ua salt bj := rfl
  rw [hbody]
  simp [h16, natToBytesBE_length, localPublicKeyBytes_length,
    recordEncrypted_length H ks tagF ephPriv ub ua salt bj htag]
  omega

/-- C7 amended witness: the no-size-check theorem applied at the concrete
oversize payload. -/
theorem claim_c7_amended_witness :
    sendPushNotificationModel hmacC ksC tagC 1 2 (some "pk") (some "sk") none 0 saltC 7
        "https://p.example/e" subDhC authC bigBodyC
      = .ok (sendCore hmacC ksC tagC 1 2 "pk" none 0 saltC 7 "https://p.example/e"
          subDhC authC bigBodyC)
    ∧ (sendCore hmacC ksC tagC 1 2 "pk" none 0 saltC 7 "https://p.example/e"
          subDhC authC bigBodyC).body.length
      = 85 + ((utf8Bytes bigBodyC).length + 1) + 16 :=
  claim_c7_amended hmacC ksC tagC 1 2 "pk" "sk" none 0 saltC 7 "https://p.example/e"
    subDhC authC bigBodyC (by decide) (by decide) (fun _ _ _ _ => rfl)

/-- C1.  Divergence: a receiver that inverts the pipeline as the claim
describes it — 65-byte keyId at offset 21, ciphertext from offset 86, ECDH
with the keyId, RFC 8291 HKDF, AES-128-GCM decrypt, strip the `0x02`
delimiter — applied to the body the program actually produces does not
recover the payload bytes: the program's record carries a 64-byte keyId
(idlen `0x40`, 85-byte header), so the spec-following parse is off by one
and the derivation inputs are mismatched. -/
theorem claim_c1_spec_receiver_fails :
    webPushDecrypt hmacC ksC tagC 5 authC subDhC
        (sendCore hmacC ksC tagC 1 2 "pk" none 0 saltC 7 "https://p.example/e"
          subDhC authC "hi").body
      ≠ some (utf8Bytes "hi") := by decide

/-- For a `scheme://host/path` endpoint the `aud` claim the source builds is
the scheme-plus-host origin only: the path is dropped. -/
theorem audOf_origin (scheme host path : List Char)
    (hs : ∀ c ∈ scheme, (c != ':') = true) (hh : ∀ c ∈ host, (c != '/') = true) :
    audOf (String.mk (scheme ++ ':' :: '/' :: '/' :: (host ++ '/' :: path)))
      = String.mk (scheme ++ ':' :: '/' :: '/' :: host) := by
  unfold audOf urlProtocol urlHost urlSchemeChars urlHostChars
  rw [show (String.mk (scheme ++ ':' :: '/' :: '/' :: (host ++ '/' :: path))).data
      = scheme ++ ':' :: '/' :: '/' :: (host ++ '/' :: path) from rfl]
  rw [takeWhile_append_cons _ scheme ('/' :: '/' :: (host ++ '/' :: path)) ':' hs (by decide)]
  rw [dropWhile_append_cons _ scheme ('/' :: '/' :: (host ++ '/' :: path)) ':' hs (by decide)]
  rw [show (':' :: '/' :: '/' :: (host ++ '/' :: path)).drop 3 = host ++ '/' :: path from rfl]
  rw [takeWhile_append_cons _ host path '/' hh (by decide)]
  apply String.ext
  simp [String.data_append]

/-- C5.  JWT shape: for every endpoint of the form `scheme://host/path` and
every call time, the VAPID JWT is exactly three dot-free (base64url)
segments joined by `.`, the IEEE P1363 signature encoding is exactly 64
raw bytes (32-byte `r` ∥ 32-byte `s`, not ASN.1 DER), the `aud` claim is
the endpoint's scheme-plus-host origin with no path, and `exp` minus the
current time is at most 86400 seconds (the source sets `now + 43200`). -/
theorem claim_c5_jwt_shape (sigR sigS now : Nat) (scheme host path : List Char)
    (app : Option String)
    (hs : ∀ c ∈ scheme, (c != ':') = true) (hh : ∀ c ∈ host, (c != '/') = true) :
    (∃ hseg cseg sseg : String,
        vapidJwt sigR sigS
            (String.mk (scheme ++ ':' :: '/' :: '/' :: (host ++ '/' :: path))) now app
          = hseg ++ "." ++ cseg ++ "." ++ sseg
        ∧ (∀ ch ∈ hseg.data, ch ≠ '.') ∧ (∀ ch ∈ cseg.data, ch ≠ '.')
        ∧ (∀ ch ∈ sseg.data, ch ≠ '.'))
    ∧ (p1363 sigR sigS).length = 64
    ∧ audOf (String.mk (scheme ++ ':' :: '/' :: '/' :: (host ++ '/' :: path)))
        = String.mk (scheme ++ ':' :: '/' :: '/' :: host)
    ∧ vapidExp now - now ≤ 86400 := by
  refine ⟨⟨base64urlStr jwtHeaderJson,
      base64urlStr (vapidClaimsJson
        (String.mk (scheme ++ ':' :: '/' :: '/' :: (host ++ '/' :: path))) now app),
      base64url (p1363 sigR sigS),
      rfl, base64url_ne_dot _, base64url_ne_dot _, base64url_ne_dot _⟩,
    ?_, audOf_origin scheme host path hs hh, ?_⟩
  · simp [p1363, natToBytesBE_length]
  · show now + 43200 - now ≤ 86400
    omega

/-- C5 witness: the JWT-shape theorem at a concrete endpoint
`https://push.example.com/sub123`, time 1000 and signature scalars
`(9, 11)`. -/
theorem claim_c5_jwt_shape_witness :
    (∃ hseg cseg sseg : String,
        vapidJwt 9 11
            (String.mk ("https".data ++ ':' :: '/' :: '/'
              :: ("push.example.com".data ++ '/' :: "sub123".data))) 1000 none
          = hseg ++ "." ++ cseg ++ "." ++ sseg
        ∧ (∀ ch ∈ hseg.data, ch ≠ '.') ∧ (∀ ch ∈ cseg.data, ch ≠ '.')
        ∧ (∀ ch ∈ sseg.data, ch ≠ '.'))
    ∧ (p1363 9 11).length = 64
    ∧ audOf (String.mk ("https".data ++ ':' :: '/' :: '/'
          :: ("push.example.com".data ++ '/' :: "sub123".data)))
        = String.mk ("https".data ++ ':' :: '/' :: '/' :: "push.example.com".data)
    ∧ vapidExp 1000 - 1000 ≤ 86400 :=
  claim_c5_jwt_shape 9 11 1000 "https".data "push.example.com".data "sub123".data none
    (by decide) (by decide)

end WebPush
